import Mathlib

/-!
# A shallow embedding of the point-of-sale core (src/pos)

This file models the core transaction/cart/inventory logic of the POS
system: `models.py` (Product, CartItem, Cart, Receipt, TAX_RATE),
`store.py` (Store) and `pos.py` (POSSystem), and proves the spec's
claims about it.

Modelling conventions:
* Monetary values are rationals (`ℚ`).  Python's `round(x, 2)`
  (round-half-to-even, i.e. banker's rounding) is modelled by `round2`,
  which rounds an exact rational half-to-even at 2 decimal places.
  Deviations of binary floating point from exact decimal arithmetic are
  outside the model; at every concrete input used below the two agree.
* Quantities and stock are integers (`ℤ`), as in Python, so that the
  behaviour on zero/negative quantities can be examined.
* Python exceptions become an error type `PosError` whose constructors
  follow the spec's taxonomy; each `raise` site in the source maps to
  one constructor.  Fallible operations return `Except PosError _`.
  Every fallible operation in `models.py`/`store.py` validates before
  mutating, so returning no state on error is faithful; the one place
  where an exception could escape mid-mutation (the stock-reduction
  loop inside `POSSystem.checkout`) is modelled by threading the
  partially-updated state explicitly.
* `Receipt.timestamp` (wall-clock time) is omitted: no claim concerns it.
-/

namespace POS

/-- Round-half-to-even of a rational to an integer
(the rounding used by Python's builtin `round`). -/
def roundHE (q : ℚ) : ℤ :=
  if q - ⌊q⌋ < 1/2 then ⌊q⌋
  else if 1/2 < q - ⌊q⌋ then ⌊q⌋ + 1
  else if ⌊q⌋ % 2 = 0 then ⌊q⌋ else ⌊q⌋ + 1

/-- `round(x, 2)` from Python: round to 2 decimal places, half to even. -/
def round2 (q : ℚ) : ℚ := (roundHE (q * 100) : ℚ) / 100

/-- `TAX_RATE` from `models.py` (a percentage). -/
def TAX_RATE : ℚ := 85/10

/-- `Product` from `models.py`.  The `__post_init__` validation
(price ≥ 0, stock ≥ 0) is carried as hypotheses where needed. -/
structure Product where
  id : ℤ
  name : String
  price : ℚ
  category : String
  stock : ℤ
deriving Repr, DecidableEq

/-- `Product.is_available` from `models.py`. -/
def Product.is_available (p : Product) (quantity : ℤ) : Bool :=
  p.stock ≥ quantity

/-- `CartItem` from `models.py`: a product reference plus a quantity.
Its `__post_init__` check (quantity ≥ 1) fires exactly where the source
constructs a `CartItem`, i.e. inside `Cart.add`'s append branch. -/
structure CartItem where
  product : Product
  quantity : ℤ
deriving Repr, DecidableEq

/-- `CartItem.subtotal` from `models.py`. -/
def CartItem.subtotal (it : CartItem) : ℚ :=
  round2 (it.product.price * it.quantity)

/-- `Cart` from `models.py`. -/
structure Cart where
  items : List CartItem
  discount_percent : ℚ
deriving Repr, DecidableEq

/-- The empty cart (`Cart()` with dataclass defaults). -/
def Cart.empty : Cart := ⟨[], 0⟩

def Cart.subtotal (c : Cart) : ℚ :=
  round2 ((c.items.map CartItem.subtotal).sum)

def Cart.discount_amount (c : Cart) : ℚ :=
  round2 (c.subtotal * c.discount_percent / 100)

def Cart.total_before_tax (c : Cart) : ℚ :=
  round2 (c.subtotal - c.discount_amount)

def Cart.tax_amount (c : Cart) : ℚ :=
  round2 (c.total_before_tax * TAX_RATE / 100)

def Cart.total (c : Cart) : ℚ :=
  round2 (c.total_before_tax + c.tax_amount)

def Cart.item_count (c : Cart) : ℤ :=
  (c.items.map CartItem.quantity).sum

def Cart.is_empty (c : Cart) : Bool :=
  c.items.length = 0

/-- `Cart.find_item` from `models.py`: first line whose product has the id. -/
def Cart.find_item (c : Cart) (product_id : ℤ) : Option CartItem :=
  c.items.find? (fun it => it.product.id == product_id)

/-- The error taxonomy of the spec (§7); each constructor corresponds to
one family of `raise` sites in the source (`ValueError` with a
distinguishing message, or `ProductNotFoundError`). -/
inductive PosError where
  | validation (msg : String)
  | notFound (product_id : ℤ)
  | insufficientStock (name : String) (requested available : ℤ)
  | emptyCart
  | insufficientPayment (total payment : ℚ)
deriving Repr, DecidableEq

/-- Replace the first element satisfying `f` by its image under `g`
(in-place mutation of the found element in the source). -/
def updateFirst (f : α → Bool) (g : α → α) : List α → List α
  | [] => []
  | x :: xs => if f x then g x :: xs else x :: updateFirst f g xs

/-- Remove the first element satisfying `f`
(`list.remove(item)` on the element found by `find?`). -/
def eraseFirst (f : α → Bool) : List α → List α
  | [] => []
  | x :: xs => if f x then xs else x :: eraseFirst f xs

/-- `Cart.add` from `models.py`.  Checks, in source order:
the increment against current stock; then, if a line for the product
exists, the cumulative quantity against stock before committing; in the
append branch the `CartItem` constructor validates quantity ≥ 1.
(The merge branch performs no quantity validation — as in the source.) -/
def Cart.add (c : Cart) (product : Product) (quantity : ℤ) : Except PosError Cart :=
  if ¬ product.is_available quantity then
    .error (.insufficientStock product.name quantity product.stock)
  else
    match c.find_item product.id with
    | some existing =>
      let total_qty := existing.quantity + quantity
      if ¬ product.is_available total_qty then
        .error (.insufficientStock product.name total_qty product.stock)
      else
        let items := updateFirst (fun it => it.product.id == product.id)
          (fun it => { it with quantity := total_qty }) c.items
        .ok { c with items := items }
    | none =>
      if quantity ≤ 0 then
        .error (.validation "Quantity must be at least 1")
      else
        .ok { c with items := c.items ++ [⟨product, quantity⟩] }

/-- `Cart.remove` from `models.py`.  `quantity = none` models the omitted
argument.  No positivity check is performed on an explicit quantity —
as in the source. -/
def Cart.remove (c : Cart) (product_id : ℤ) (quantity : Option ℤ) :
    Except PosError Cart :=
  match c.find_item product_id with
  | none => .error (.notFound product_id)
  | some item =>
    match quantity with
    | none =>
      .ok { c with items := eraseFirst (fun it => it.product.id == product_id) c.items }
    | some q =>
      if q ≥ item.quantity then
        .ok { c with items := eraseFirst (fun it => it.product.id == product_id) c.items }
      else
        let items := updateFirst (fun it => it.product.id == product_id)
          (fun it => { it with quantity := it.quantity - q }) c.items
        .ok { c with items := items }

/-- `Cart.clear` from `models.py`. -/
def Cart.clear (_c : Cart) : Cart := ⟨[], 0⟩

/-- `Cart.apply_discount` from `models.py`. -/
def Cart.apply_discount (c : Cart) (percent : ℚ) : Except PosError Cart :=
  if ¬ (0 ≤ percent ∧ percent ≤ 100) then
    .error (.validation "Discount must be between 0 and 100")
  else
    .ok { c with discount_percent := percent }

/-- `Store` from `store.py`: the catalog.  The Python `Dict[int, Product]`
(insertion-ordered, unique keys) is modelled as a list of products in
insertion order, looked up by id. -/
structure Store where
  products : List Product
  next_id : ℤ
deriving Repr, DecidableEq

/-- `Store()` — empty catalog, id counter starts at 1. -/
def Store.empty : Store := ⟨[], 1⟩

/-- `Store.add_product` from `store.py` (validation of price/stock happens
in `Product.__post_init__`, modelled by the error branch here). -/
def Store.add_product (s : Store) (name : String) (price : ℚ)
    (category : String) (stock : ℤ) : Except PosError (Product × Store) :=
  if price < 0 then .error (.validation "Price cannot be negative")
  else if stock < 0 then .error (.validation "Stock cannot be negative")
  else
    let product : Product := ⟨s.next_id, name, price, category, stock⟩
    .ok (product, ⟨s.products ++ [product], s.next_id + 1⟩)

/-- `Store.get_product` from `store.py`. -/
def Store.get_product (s : Store) (product_id : ℤ) : Except PosError Product :=
  match s.products.find? (fun p => p.id == product_id) with
  | none => .error (.notFound product_id)
  | some p => .ok p

/-- `Store.restock` from `store.py`. -/
def Store.restock (s : Store) (product_id : ℤ) (quantity : ℤ) :
    Except PosError Store :=
  if quantity ≤ 0 then .error (.validation "Restock quantity must be positive")
  else
    match s.products.find? (fun p => p.id == product_id) with
    | none => .error (.notFound product_id)
    | some _ =>
      let products := updateFirst (fun p => p.id == product_id)
        (fun p => { p with stock := p.stock + quantity }) s.products
      .ok { s with products := products }

/-- `Store.reduce_stock` from `store.py`.  Validates quantity > 0, looks
the product up, checks stock sufficiency, then mutates stock in place. -/
def Store.reduce_stock (s : Store) (product_id : ℤ) (quantity : ℤ) :
    Except PosError Store :=
  if quantity ≤ 0 then .error (.validation "Quantity must be positive")
  else
    match s.products.find? (fun p => p.id == product_id) with
    | none => .error (.notFound product_id)
    | some p =>
      if p.stock < quantity then
        .error (.insufficientStock p.name quantity p.stock)
      else
        let products := updateFirst (fun q => q.id == product_id)
          (fun q => { q with stock := q.stock - quantity }) s.products
        .ok { s with products := products }

/-- `Receipt` from `models.py` (timestamp omitted, see the header). -/
structure Receipt where
  transaction_id : ℤ
  cart_snapshot : List CartItem
  subtotal : ℚ
  discount_percent : ℚ
  discount_amount : ℚ
  tax_rate : ℚ
  tax_amount : ℚ
  total : ℚ
  payment : ℚ
  change : ℚ
deriving Repr, DecidableEq

/-- `POSSystem` from `pos.py`. -/
structure POSSystem where
  store : Store
  cart : Cart
  transaction_counter : ℤ
  last_receipt : Option Receipt
deriving Repr, DecidableEq

/-- `POSSystem(store)` — fresh controller over a catalog. -/
def POSSystem.init (store : Store) : POSSystem := ⟨store, Cart.empty, 0, none⟩

/-- `POSSystem.open_transaction` from `pos.py`. -/
def POSSystem.open_transaction (pos : POSSystem) : POSSystem :=
  { pos with cart := pos.cart.clear }

/-- `POSSystem.add_to_cart` from `pos.py`: store lookup then `Cart.add`. -/
def POSSystem.add_to_cart (pos : POSSystem) (product_id quantity : ℤ) :
    Except PosError POSSystem :=
  match pos.store.get_product product_id with
  | .error e => .error e
  | .ok product =>
    match pos.cart.add product quantity with
    | .error e => .error e
    | .ok cart => .ok { pos with cart := cart }

/-- `POSSystem.remove_from_cart` from `pos.py`. -/
def POSSystem.remove_from_cart (pos : POSSystem) (product_id : ℤ)
    (quantity : Option ℤ) : Except PosError POSSystem :=
  match pos.cart.remove product_id quantity with
  | .error e => .error e
  | .ok cart => .ok { pos with cart := cart }

/-- `POSSystem.apply_discount` from `pos.py`. -/
def POSSystem.apply_discount (pos : POSSystem) (percent : ℚ) :
    Except PosError POSSystem :=
  match pos.cart.apply_discount percent with
  | .error e => .error e
  | .ok cart => .ok { pos with cart := cart }

/-- `POSSystem.transaction_count` from `pos.py`. -/
def POSSystem.transaction_count (pos : POSSystem) : ℤ :=
  pos.transaction_counter

/-- The `for item in self._cart.items: self._store.reduce_stock(...)` loop
of `POSSystem.checkout`.  If a reduction raises, the loop stops and the
store mutated so far is returned together with the error (the Python
exception escapes after the earlier reductions already happened). -/
def Store.reduceAll (s : Store) : List CartItem → Store × Option PosError
  | [] => (s, none)
  | it :: rest =>
    match s.reduce_stock it.product.id it.quantity with
    | .ok s2 => s2.reduceAll rest
    | .error e => (s, some e)

/-- `POSSystem.checkout` from `pos.py`, with state threaded explicitly:
the second component is the state as left behind by the call, whether it
raised or returned.  Source order: empty-cart check, payment check,
counter pre-increment, stock reduction loop, receipt construction from
the (not yet cleared) cart, store receipt, clear cart, return receipt. -/
def POSSystem.checkout (pos : POSSystem) (payment : ℚ) :
    Except PosError Receipt × POSSystem :=
  if pos.cart.is_empty then (.error .emptyCart, pos)
  else if payment < pos.cart.total then
    (.error (.insufficientPayment pos.cart.total payment), pos)
  else
    let pos1 : POSSystem :=
      { pos with transaction_counter := pos.transaction_counter + 1 }
    match pos1.store.reduceAll pos1.cart.items with
    | (store2, some e) => (.error e, { pos1 with store := store2 })
    | (store2, none) =>
      let receipt : Receipt :=
        { transaction_id := pos1.transaction_counter
          cart_snapshot := pos1.cart.items
          subtotal := pos1.cart.subtotal
          discount_percent := pos1.cart.discount_percent
          discount_amount := pos1.cart.discount_amount
          tax_rate := TAX_RATE
          tax_amount := pos1.cart.tax_amount
          total := pos1.cart.total
          payment := round2 payment
          change := round2 (payment - pos1.cart.total) }
      (.ok receipt,
        { pos1 with store := store2, cart := pos1.cart.clear,
                    last_receipt := some receipt })

/-! ## Properties of the rounding function -/

/-- `q` is representable with two decimal digits. -/
def Is2dp (q : ℚ) : Prop := ∃ n : ℤ, q = (n : ℚ) / 100

/-! ## The quantity a cart holds for a given product id -/

/-- Quantity of the (first) cart line for `pid`; 0 when there is none. -/
def cartQty (items : List CartItem) (pid : ℤ) : ℤ :=
  match items.find? (fun it => it.product.id == pid) with
  | some it => it.quantity
  | none => 0

/-! ## Characterising the stock-reduction loop of checkout -/

/-- The catalog's ids are pairwise distinct (holds for every store built
through `Store.add_product`, which assigns fresh sequential ids). -/
def Store.idsNodup (s : Store) : Prop := (s.products.map Product.id).Nodup

/-- Each cart line has a positive quantity and refers to a catalog product
with enough stock for it — the invariants `Cart.add` establishes for the
single-controller usage of the spec. -/
def linesOK (s : Store) (items : List CartItem) : Prop :=
  ∀ it ∈ items, 0 < it.quantity ∧
    ∃ p ∈ s.products, p.id = it.product.id ∧ it.quantity ≤ p.stock

/-! ## Characterising checkout -/

/-- State invariants under which checkout's stock-reduction loop cannot
fail: distinct catalog ids, distinct cart line ids, and every line backed
by a catalog product with sufficient stock (what reachable single-cart
states satisfy). -/
def POSSystem.checkoutReady (pos : POSSystem) : Prop :=
  pos.store.idsNodup ∧ (pos.cart.items.map fun it => it.product.id).Nodup ∧
    linesOK pos.store pos.cart.items

/-- The receipt a successful `checkout payment` returns, in terms of the
pre-checkout state. -/
def POSSystem.successReceipt (pos : POSSystem) (payment : ℚ) : Receipt :=
  { transaction_id := pos.transaction_counter + 1
    cart_snapshot := pos.cart.items
    subtotal := pos.cart.subtotal
    discount_percent := pos.cart.discount_percent
    discount_amount := pos.cart.discount_amount
    tax_rate := TAX_RATE
    tax_amount := pos.cart.tax_amount
    total := pos.cart.total
    payment := round2 payment
    change := round2 (payment - pos.cart.total) }

/-- The state a successful `checkout payment` leaves behind, in terms of
the pre-checkout state. -/
def POSSystem.successState (pos : POSSystem) (payment : ℚ) : POSSystem :=
  { store := ⟨pos.store.products.map
        (fun p => { p with stock := p.stock - cartQty pos.cart.items p.id }),
      pos.store.next_id⟩
    cart := ⟨[], 0⟩
    transaction_counter := pos.transaction_counter + 1
    last_receipt := some (pos.successReceipt payment) }

/-! ## Concrete states used by the scenario claims -/

/-- Product id 1, "Coffee", price 2.50, stock 50 (the §8 scenario). -/
def coffee : Product := ⟨1, "Coffee", 5/2, "Beverages", 50⟩

/-- Catalog holding exactly `coffee` (as `Store().add_product` leaves it). -/
def demoStore : Store := ⟨[coffee], 2⟩

/-- Fresh controller over `demoStore`. -/
def demoPOS : POSSystem := POSSystem.init demoStore

/-- The controller after `open_transaction()` and `add_to_cart(1, 2)`. -/
def demoPOS1 : POSSystem := ⟨demoStore, ⟨[⟨coffee, 2⟩], 0⟩, 0, none⟩

/-- The receipt the model produces for `checkout(10.00)` from `demoPOS1`. -/
def demoReceipt : Receipt :=
  ⟨1, [⟨coffee, 2⟩], 5, 0, 0, 17/2, 21/50, 271/50, 10, 229/50⟩

/-- Product id 1, "A", price 1, stock 5 (for the cumulative-stock claims). -/
def prodA : Product := ⟨1, "A", 1, "X", 5⟩

/-- A cart holding one line: one unit of `prodA`. -/
def cartA : Cart := ⟨[⟨prodA, 1⟩], 0⟩

/-- Product id 1, "B", price 1, stock 10. -/
def prodB : Product := ⟨1, "B", 1, "X", 10⟩

/-- A cart holding one line: two units of `prodB`. -/
def cartB : Cart := ⟨[⟨prodB, 2⟩], 0⟩

/-- Product id 1, "D", price 1, stock 10. -/
def prodD : Product := ⟨1, "D", 1, "X", 10⟩

/-- A cart holding one line: five units of `prodD`. -/
def cartD : Cart := ⟨[⟨prodD, 5⟩], 0⟩

/-- `cartD` with a 10 % discount applied. -/
def cartDisc : Cart := ⟨[⟨prodD, 5⟩], 10⟩

/-! ## The claims -/

/-- The success postcondition of `checkout` asserted by claim C1, at
state `pos` and payment `payment`. -/
def checkoutSuccessSpec (pos : POSSystem) (payment : ℚ) : Prop :=
  ∃ r : Receipt,
    (pos.checkout payment).1 = .ok r ∧
    (pos.checkout payment).2.transaction_count = pos.transaction_count + 1 ∧
    r.transaction_id = pos.transaction_count + 1 ∧
    (∀ it ∈ pos.cart.items, ∀ p ∈ pos.store.products, p.id = it.product.id →
      (pos.checkout payment).2.store.get_product it.product.id =
        .ok { p with stock := p.stock - it.quantity }) ∧
    r.cart_snapshot = pos.cart.items ∧
    r.subtotal = pos.cart.subtotal ∧
    r.discount_percent = pos.cart.discount_percent ∧
    r.discount_amount = pos.cart.discount_amount ∧
    r.tax_rate = TAX_RATE ∧
    r.tax_amount = pos.cart.tax_amount ∧
    r.total = pos.cart.total ∧
    r.payment = round2 payment ∧
    r.change = round2 (payment - pos.cart.total) ∧
    (pos.checkout payment).2.last_receipt = some r ∧
    (pos.checkout payment).2.cart.items = [] ∧
    (pos.checkout payment).2.cart.discount_percent = 0 ∧
    ∀ payment2, ((pos.checkout payment).2.checkout payment2).1 = .error .emptyCart

/-- The frame property of a successful checkout asserted by claim C10,
at state `pos` and payment `payment`. -/
def checkoutFrameSpec (pos : POSSystem) (payment : ℚ) : Prop :=
  ∃ r, (pos.checkout payment).1 = .ok r ∧
    (pos.checkout payment).2.store.next_id = pos.store.next_id ∧
    (pos.checkout payment).2.store.products.map Product.id =
      pos.store.products.map Product.id ∧
    (∀ p ∈ pos.store.products,
      ∃ p2 ∈ (pos.checkout payment).2.store.products,
        p2.id = p.id ∧ p2.name = p.name ∧ p2.price = p.price ∧
        p2.category = p.category ∧
        p2.stock = p.stock - cartQty pos.cart.items p.id) ∧
    (∀ p ∈ pos.store.products, pos.cart.find_item p.id = none →
      p ∈ (pos.checkout payment).2.store.products)

theorem roundHE_intCast (n : ℤ) : roundHE (n : ℚ) = n := by
  unfold roundHE
  norm_num

theorem roundHE_mono {x y : ℚ} (h : x ≤ y) : roundHE x ≤ roundHE y := by
  rcases lt_or_le ⌊x⌋ ⌊y⌋ with hf | hf
  · unfold roundHE
    split_ifs <;> omega
  · have hfe : ⌊x⌋ = ⌊y⌋ := le_antisymm (Int.floor_le_floor h) hf
    have hxy : x - (⌊y⌋ : ℚ) ≤ y - (⌊y⌋ : ℚ) := by linarith
    unfold roundHE
    rw [hfe]
    split_ifs <;> first | omega | (exfalso; linarith)

theorem round2_int_div (n : ℤ) : round2 ((n : ℚ) / 100) = (n : ℚ) / 100 := by
  unfold round2
  rw [div_mul_cancel₀ _ (by norm_num : (100 : ℚ) ≠ 0), roundHE_intCast]

theorem is2dp_round2 (q : ℚ) : Is2dp (round2 q) := ⟨roundHE (q * 100), rfl⟩

theorem Is2dp.round2_eq {q : ℚ} (h : Is2dp q) : round2 q = q := by
  obtain ⟨n, rfl⟩ := h
  exact round2_int_div n

theorem is2dp_zero : Is2dp 0 := ⟨0, by norm_num⟩

theorem Is2dp.add {a b : ℚ} (ha : Is2dp a) (hb : Is2dp b) : Is2dp (a + b) := by
  obtain ⟨m, rfl⟩ := ha
  obtain ⟨n, rfl⟩ := hb
  exact ⟨m + n, by push_cast; ring⟩

theorem Is2dp.sub {a b : ℚ} (ha : Is2dp a) (hb : Is2dp b) : Is2dp (a - b) := by
  obtain ⟨m, rfl⟩ := ha
  obtain ⟨n, rfl⟩ := hb
  exact ⟨m - n, by push_cast; ring⟩

theorem round2_round2 (q : ℚ) : round2 (round2 q) = round2 q :=
  (is2dp_round2 q).round2_eq

theorem round2_mono {x y : ℚ} (h : x ≤ y) : round2 x ≤ round2 y := by
  unfold round2
  have := roundHE_mono (mul_le_mul_of_nonneg_right h (by norm_num : (0:ℚ) ≤ 100))
  have hcast : (roundHE (x * 100) : ℚ) ≤ (roundHE (y * 100) : ℚ) := by
    exact_mod_cast this
  linarith

theorem round2_zero : round2 0 = 0 := is2dp_zero.round2_eq

theorem round2_nonneg {q : ℚ} (h : 0 ≤ q) : 0 ≤ round2 q := by
  have := round2_mono h
  rwa [round2_zero] at this

/-! ## Generic lemmas about keyed lists (`find?` / `updateFirst` / `eraseFirst`) -/

theorem find?_key_map {α : Type} (k : α → ℤ) (f : α → α)
    (hf : ∀ a, k (f a) = k a) (l : List α) (x : ℤ) :
    (l.map f).find? (fun a => k a == x) = (l.find? (fun a => k a == x)).map f := by
  induction l with
  | nil => rfl
  | cons a l ih =>
    by_cases hk : k a = x
    · simp [List.find?, hf, hk]
    · have hb : (k a == x) = false := beq_eq_false_iff_ne.mpr hk
      simp [List.find?, hf, hb, ih]

theorem updateFirst_eq_map {α : Type} (k : α → ℤ) (g : α → α) (x : ℤ)
    (l : List α) (hnd : (l.map k).Nodup) :
    updateFirst (fun a => k a == x) g l =
      l.map (fun a => if k a = x then g a else a) := by
  induction l with
  | nil => rfl
  | cons a l ih =>
    simp only [List.map_cons, List.nodup_cons] at hnd
    by_cases hk : k a = x
    · have hrest : ∀ b ∈ l, ¬ k b = x := by
        intro b hb hbx
        have hmem : k a ∈ List.map k l := by
          rw [hk, ← hbx]
          exact List.mem_map_of_mem k hb
        exact hnd.1 hmem
      have hmap : l.map (fun a => if k a = x then g a else a) = l := by
        rw [List.map_congr_left (fun b hb => if_neg (hrest b hb))]
        exact List.map_id' l
      simp [updateFirst, hk, hmap]
    · have hb : (k a == x) = false := beq_eq_false_iff_ne.mpr hk
      simp [updateFirst, hk, hb, ih hnd.2]

theorem find?_eq_some_of_mem_nodup {α : Type} (k : α → ℤ) (l : List α)
    (hnd : (l.map k).Nodup) (a : α) (ha : a ∈ l) :
    l.find? (fun b => k b == k a) = some a := by
  induction l with
  | nil => simp at ha
  | cons b l ih =>
    simp only [List.map_cons, List.nodup_cons] at hnd
    rcases List.mem_cons.mp ha with rfl | ha'
    · simp [List.find?]
    · have hkb : ¬ k b = k a := by
        intro hk
        have hmem : k b ∈ List.map k l := by
          rw [hk]
          exact List.mem_map_of_mem k ha'
        exact hnd.1 hmem
      have hbf : (k b == k a) = false := beq_eq_false_iff_ne.mpr hkb
      simp [List.find?, hbf, ih hnd.2 ha']

theorem mem_eq_of_key_eq_of_nodup {α : Type} (k : α → ℤ) (l : List α)
    (hnd : (l.map k).Nodup) {a b : α} (ha : a ∈ l) (hb : b ∈ l)
    (hk : k a = k b) : a = b := by
  have h1 := find?_eq_some_of_mem_nodup k l hnd a ha
  have h2 := find?_eq_some_of_mem_nodup k l hnd b hb
  rw [hk] at h1
  rw [h1] at h2
  exact Option.some.inj h2

theorem eraseFirst_append_singleton {α : Type} (f : α → Bool) (l : List α)
    (x : α) (hl : ∀ a ∈ l, ¬ f a) (hx : f x) :
    eraseFirst f (l ++ [x]) = l := by
  induction l with
  | nil => simp [eraseFirst, hx]
  | cons a l ih =>
    have ha : ¬ f a := hl a (List.mem_cons_self a l)
    simp only [List.cons_append, eraseFirst, Bool.not_eq_true] at *
    simp [ha, ih (fun b hb => hl b (List.mem_cons_of_mem a hb))]

theorem cartQty_nil (pid : ℤ) : cartQty [] pid = 0 := rfl

theorem cartQty_cons (it : CartItem) (rest : List CartItem) (pid : ℤ) :
    cartQty (it :: rest) pid =
      if it.product.id = pid then it.quantity else cartQty rest pid := by
  by_cases h : it.product.id = pid
  · simp [cartQty, List.find?, h]
  · have hb : (it.product.id == pid) = false := beq_eq_false_iff_ne.mpr h
    simp [cartQty, List.find?, h, hb]

theorem cartQty_eq_zero_of_not_mem (items : List CartItem) (pid : ℤ)
    (h : pid ∉ items.map fun it => it.product.id) : cartQty items pid = 0 := by
  have : items.find? (fun it => it.product.id == pid) = none := by
    rw [List.find?_eq_none]
    intro it hit
    simp only [beq_iff_eq]
    intro hid
    exact h (hid ▸ List.mem_map_of_mem _ hit)
  simp [cartQty, this]

theorem cartQty_of_mem_nodup (items : List CartItem) (it : CartItem)
    (hnd : (items.map fun i => i.product.id).Nodup) (hmem : it ∈ items) :
    cartQty items it.product.id = it.quantity := by
  have := find?_eq_some_of_mem_nodup (fun i => i.product.id) items hnd it hmem
  simp [cartQty, this]

theorem reduce_stock_found (s : Store) (pid qty : ℤ) (p : Product)
    (hq : 0 < qty)
    (hfind : s.products.find? (fun r => r.id == pid) = some p)
    (hstock : qty ≤ p.stock) :
    s.reduce_stock pid qty = .ok ⟨updateFirst (fun r => r.id == pid)
      (fun r => { r with stock := r.stock - qty }) s.products, s.next_id⟩ := by
  unfold Store.reduce_stock
  rw [if_neg (by omega : ¬ qty ≤ 0), hfind]
  simp only
  rw [if_neg (by omega : ¬ p.stock < qty)]

theorem Store.reduceAll_nil (s : Store) : s.reduceAll [] = (s, none) := rfl

theorem Store.reduceAll_cons (s : Store) (it : CartItem) (rest : List CartItem) :
    s.reduceAll (it :: rest) =
      match s.reduce_stock it.product.id it.quantity with
      | .ok s2 => s2.reduceAll rest
      | .error e => (s, some e) := rfl

theorem reduceAll_eq (items : List CartItem) (s : Store)
    (hs : s.idsNodup)
    (hnd : (items.map fun it => it.product.id).Nodup)
    (hok : linesOK s items) :
    s.reduceAll items =
      (⟨s.products.map
        (fun p => { p with stock := p.stock - cartQty items p.id }), s.next_id⟩, none) := by
  induction items generalizing s with
  | nil =>
    have hmap : s.products.map
        (fun p => { p with stock := p.stock - cartQty [] p.id }) = s.products := by
      have h1 : ∀ p ∈ s.products,
          ({ p with stock := p.stock - cartQty [] p.id } : Product) = p := by
        intro p _
        simp [cartQty_nil]
      rw [List.map_congr_left h1]
      exact List.map_id' s.products
    simp [Store.reduceAll, hmap]
  | cons it rest ih =>
    obtain ⟨hq, p0, hp0mem, hp0id, hp0stock⟩ := hok it (List.mem_cons_self it rest)
    have hfind : s.products.find? (fun r => r.id == it.product.id) = some p0 := by
      have h := find?_eq_some_of_mem_nodup Product.id s.products hs p0 hp0mem
      rw [hp0id] at h
      exact h
    have hred := reduce_stock_found s it.product.id it.quantity p0 hq hfind hp0stock
    have hndc := List.nodup_cons.mp hnd
    have hupd : updateFirst (fun r => r.id == it.product.id)
        (fun r => { r with stock := r.stock - it.quantity }) s.products =
        s.products.map (fun p =>
          if p.id = it.product.id then { p with stock := p.stock - it.quantity } else p) :=
      updateFirst_eq_map Product.id _ _ s.products hs
    set f : Product → Product := fun p =>
      if p.id = it.product.id then { p with stock := p.stock - it.quantity } else p with hf
    have hfid : ∀ p, (f p).id = p.id := by
      intro p
      rw [hf]
      by_cases h : p.id = it.product.id <;> simp [h]
    set s1 : Store := { s with products := s.products.map f } with hs1def
    have hs1 : s1.idsNodup := by
      unfold Store.idsNodup
      rw [hs1def]
      simp only [List.map_map]
      have h2 : List.map (Product.id ∘ f) s.products = List.map Product.id s.products :=
        List.map_congr_left (fun p _ => hfid p)
      rw [h2]
      exact hs
    have hokrest : linesOK s1 rest := by
      intro it' hit'
      obtain ⟨hq', p', hp'mem, hp'id, hp'stock⟩ := hok it' (List.mem_cons_of_mem it hit')
      refine ⟨hq', p', ?_, hp'id, hp'stock⟩
      have hneq : ¬ p'.id = it.product.id := by
        rw [hp'id]
        intro h
        have hm2 : it'.product.id ∈ List.map (fun i => i.product.id) rest :=
          List.mem_map_of_mem _ hit'
        rw [h] at hm2
        exact hndc.1 hm2
      have hm : f p' ∈ s1.products := by
        rw [hs1def]
        exact List.mem_map_of_mem f hp'mem
      rw [hf] at hm
      simp only [if_neg hneq] at hm
      exact hm
    have hIH := ih s1 hs1 hndc.2 hokrest
    rw [hupd] at hred
    have hstep : s.reduceAll (it :: rest) = s1.reduceAll rest := by
      rw [Store.reduceAll_cons, hred]
    have hfinal : s1.products.map
        (fun p => { p with stock := p.stock - cartQty rest p.id }) =
        s.products.map
        (fun p => { p with stock := p.stock - cartQty (it :: rest) p.id }) := by
      rw [hs1def]
      simp only [List.map_map]
      apply List.map_congr_left
      intro p _
      simp only [Function.comp]
      by_cases hpid : p.id = it.product.id
      · have h0 : cartQty rest p.id = 0 := by
          apply cartQty_eq_zero_of_not_mem
          rw [hpid]
          exact hndc.1
        rw [hf]
        simp only [if_pos hpid]
        rw [cartQty_cons]
        simp [hpid.symm, h0]
      · rw [hf]
        simp only [if_neg hpid]
        rw [cartQty_cons]
        simp only [if_neg (fun h : it.product.id = p.id => hpid h.symm)]
    rw [hstep, hIH, hfinal]

theorem is_empty_false_of_ne_nil {c : Cart} (h : c.items ≠ []) :
    c.is_empty = false := by
  unfold Cart.is_empty
  simpa [List.length_eq_zero] using h

theorem checkout_of_empty (pos : POSSystem) (payment : ℚ)
    (h : pos.cart.items = []) :
    pos.checkout payment = (.error .emptyCart, pos) := by
  unfold POSSystem.checkout
  have hemp : pos.cart.is_empty = true := by
    unfold Cart.is_empty
    simp [h]
  rw [hemp]
  simp

theorem checkout_of_insufficient (pos : POSSystem) (payment : ℚ)
    (h1 : pos.cart.items ≠ []) (h2 : payment < pos.cart.total) :
    pos.checkout payment =
      (.error (.insufficientPayment pos.cart.total payment), pos) := by
  unfold POSSystem.checkout
  rw [is_empty_false_of_ne_nil h1]
  simp [h2]

theorem checkout_success_eq (pos : POSSystem) (payment : ℚ)
    (hne : pos.cart.items ≠ [])
    (hpay : ¬ payment < pos.cart.total)
    (hready : pos.checkoutReady) :
    pos.checkout payment =
      (.ok (pos.successReceipt payment), pos.successState payment) := by
  obtain ⟨hs, hnd, hok⟩ := hready
  unfold POSSystem.checkout
  rw [is_empty_false_of_ne_nil hne]
  simp only [Bool.false_eq_true, if_false, if_neg hpay]
  rw [reduceAll_eq _ _ hs hnd hok]
  rfl

theorem reduce_stock_error_shape (s : Store) (pid qty : ℤ) (e : PosError)
    (h : s.reduce_stock pid qty = .error e) :
    (∃ m, e = .validation m) ∨ (∃ i, e = .notFound i) ∨
      ∃ n r a, e = .insufficientStock n r a := by
  unfold Store.reduce_stock at h
  by_cases h1 : qty ≤ 0
  · rw [if_pos h1] at h
    exact Or.inl ⟨_, (Except.error.inj h).symm⟩
  · rw [if_neg h1] at h
    cases hf : s.products.find? (fun p => p.id == pid) with
    | none =>
      rw [hf] at h
      exact Or.inr (Or.inl ⟨_, (Except.error.inj h).symm⟩)
    | some p =>
      rw [hf] at h
      simp only at h
      by_cases h2 : p.stock < qty
      · rw [if_pos h2] at h
        exact Or.inr (Or.inr ⟨_, _, _, (Except.error.inj h).symm⟩)
      · rw [if_neg h2] at h
        exact absurd h (by simp)

theorem reduceAll_error_shape (items : List CartItem) (s : Store) (e : PosError)
    (h : (s.reduceAll items).2 = some e) :
    (∃ m, e = .validation m) ∨ (∃ i, e = .notFound i) ∨
      ∃ n r a, e = .insufficientStock n r a := by
  induction items generalizing s with
  | nil => simp [Store.reduceAll_nil] at h
  | cons it rest ih =>
    rw [Store.reduceAll_cons] at h
    cases hred : s.reduce_stock it.product.id it.quantity with
    | ok s2 =>
      rw [hred] at h
      exact ih s2 h
    | error e2 =>
      rw [hred] at h
      simp only at h
      have he : e2 = e := Option.some.inj h
      rw [← he]
      exact reduce_stock_error_shape s it.product.id it.quantity e2 hred

theorem checkout_reduceAll_err (pos : POSSystem) (payment : ℚ) (s2 : Store)
    (e : PosError)
    (hne : pos.cart.items ≠ []) (hpay : ¬ payment < pos.cart.total)
    (hra : pos.store.reduceAll pos.cart.items = (s2, some e)) :
    pos.checkout payment =
      (.error e, ⟨s2, pos.cart, pos.transaction_counter + 1, pos.last_receipt⟩) := by
  unfold POSSystem.checkout
  rw [is_empty_false_of_ne_nil hne]
  simp only [Bool.false_eq_true, if_false, if_neg hpay]
  rw [hra]

theorem checkout_reduceAll_none (pos : POSSystem) (payment : ℚ) (s2 : Store)
    (hne : pos.cart.items ≠ []) (hpay : ¬ payment < pos.cart.total)
    (hra : pos.store.reduceAll pos.cart.items = (s2, none)) :
    (pos.checkout payment).1 = .ok (pos.successReceipt payment) := by
  unfold POSSystem.checkout
  rw [is_empty_false_of_ne_nil hne]
  simp only [Bool.false_eq_true, if_false, if_neg hpay]
  rw [hra]
  rfl

/-! ## Sign facts about the cart's derived totals -/

theorem subtotal_nonneg (c : Cart)
    (h : ∀ it ∈ c.items, 0 ≤ it.product.price ∧ 0 ≤ it.quantity) :
    0 ≤ c.subtotal := by
  apply round2_nonneg
  apply List.sum_nonneg
  intro x hx
  obtain ⟨it, hit, rfl⟩ := List.mem_map.mp hx
  apply round2_nonneg
  have hq : (0 : ℚ) ≤ (it.quantity : ℚ) := by exact_mod_cast (h it hit).2
  exact mul_nonneg (h it hit).1 hq

/-! ## Evaluating `round2` on concrete rationals -/

theorem round2_of_mul_int (q : ℚ) (n : ℤ) (h : q * 100 = (n : ℚ)) :
    round2 q = (n : ℚ) / 100 := by
  unfold round2
  rw [h, roundHE_intCast]

theorem roundHE_add_half (n : ℤ) :
    roundHE ((n : ℚ) + 1/2) = if n % 2 = 0 then n else n + 1 := by
  have hfl : ⌊(n : ℚ) + 1/2⌋ = n := by
    rw [add_comm, Int.floor_add_int]
    norm_num
  unfold roundHE
  rw [hfl]
  have hfr : (n : ℚ) + 1/2 - n = 1/2 := by ring
  rw [hfr]
  rw [if_neg (by norm_num), if_neg (by norm_num)]

theorem round2_of_mul_add_half_even (q : ℚ) (n : ℤ) (h : q * 100 = (n : ℚ) + 1/2)
    (he : n % 2 = 0) : round2 q = (n : ℚ) / 100 := by
  unfold round2
  rw [h, roundHE_add_half, if_pos he]

/-! ## Evaluating the §8 scenario -/

theorem demo_item_subtotal : CartItem.subtotal ⟨coffee, 2⟩ = 5 := by
  rw [CartItem.subtotal, round2_of_mul_int _ 500 (by norm_num [coffee])]
  norm_num

theorem demo_subtotal : demoPOS1.cart.subtotal = 5 := by
  unfold Cart.subtotal demoPOS1
  simp only [List.map_cons, List.map_nil, List.sum_cons, List.sum_nil,
    demo_item_subtotal]
  rw [round2_of_mul_int _ 500 (by norm_num)]
  norm_num

theorem demo_discount_amount : demoPOS1.cart.discount_amount = 0 := by
  unfold Cart.discount_amount
  rw [demo_subtotal]
  have hd : demoPOS1.cart.discount_percent = 0 := rfl
  rw [hd]
  norm_num [round2_zero]

theorem demo_tbt : demoPOS1.cart.total_before_tax = 5 := by
  unfold Cart.total_before_tax
  rw [demo_subtotal, demo_discount_amount,
    round2_of_mul_int _ 500 (by norm_num)]
  norm_num

theorem demo_tax : demoPOS1.cart.tax_amount = 21/50 := by
  unfold Cart.tax_amount
  rw [demo_tbt,
    round2_of_mul_add_half_even _ 42 (by norm_num [TAX_RATE]) (by norm_num)]
  norm_num

theorem demo_total : demoPOS1.cart.total = 271/50 := by
  unfold Cart.total
  rw [demo_tbt, demo_tax, round2_of_mul_int _ 542 (by norm_num)]
  norm_num

theorem demo_total_le : demoPOS1.cart.total ≤ 10 := by
  rw [demo_total]
  norm_num

theorem demo_pay : round2 (10 : ℚ) = 10 := by
  rw [round2_of_mul_int _ 1000 (by norm_num)]
  norm_num

theorem demo_change : round2 (10 - demoPOS1.cart.total) = 229/50 := by
  rw [demo_total, round2_of_mul_int _ 458 (by norm_num)]
  norm_num

theorem demo_ready : demoPOS1.checkoutReady := by
  unfold POSSystem.checkoutReady Store.idsNodup linesOK
  decide

theorem demo_add : (demoPOS.open_transaction).add_to_cart 1 2 = .ok demoPOS1 := rfl

/-- Claim C1: for every non-empty well-formed cart whose total does not
exceed the payment, checkout succeeds; it pre-increments the transaction
counter (first receipt gets id counter + 1), reduces each cart line's
catalog stock by exactly that line's quantity, builds the receipt from
the pre-clear cart state, stores it as last_receipt and returns it,
leaves the cart empty with discount 0, and a second checkout without an
intervening open_transaction fails with EmptyCartError. -/
theorem claim_C1 (pos : POSSystem) (payment : ℚ)
    (hne : pos.cart.items ≠ [])
    (hpay : pos.cart.total ≤ payment)
    (hready : pos.checkoutReady) :
    checkoutSuccessSpec pos payment := by
  have hpay' : ¬ payment < pos.cart.total := not_lt.mpr hpay
  have hck := checkout_success_eq pos payment hne hpay' hready
  obtain ⟨hs, hnd, hok⟩ := hready
  refine ⟨pos.successReceipt payment, ?h1, ?h2, rfl, ?h4, rfl, rfl, rfl, rfl,
    rfl, rfl, rfl, rfl, rfl, ?h14, ?h15, ?h16, ?h17⟩
  case h1 => rw [hck]
  case h2 =>
    rw [hck]
    rfl
  case h4 =>
    intro it hit p hp hpid
    rw [hck]
    show (pos.successState payment).store.get_product it.product.id = _
    have hfind : pos.store.products.find? (fun r => r.id == it.product.id) =
        some p := by
      have h := find?_eq_some_of_mem_nodup Product.id pos.store.products hs p hp
      rw [hpid] at h
      exact h
    unfold POSSystem.successState Store.get_product
    rw [find?_key_map Product.id
      (fun p => { p with stock := p.stock - cartQty pos.cart.items p.id })
      (fun _ => rfl) pos.store.products it.product.id, hfind]
    simp only [Option.map_some']
    have hq : cartQty pos.cart.items it.product.id = it.quantity :=
      cartQty_of_mem_nodup pos.cart.items it hnd hit
    rw [hpid, hq]
  case h14 =>
    rw [hck]
    rfl
  case h15 =>
    rw [hck]
    rfl
  case h16 =>
    rw [hck]
    rfl
  case h17 =>
    intro payment2
    rw [hck, checkout_of_empty _ payment2 rfl]

/-- Witness for claim C1 at the §8 scenario state (Coffee ×2, pay 10). -/
theorem claim_C1_witness :
    demoPOS1.cart.items ≠ [] ∧ demoPOS1.cart.total ≤ 10 ∧
      demoPOS1.checkoutReady ∧ checkoutSuccessSpec demoPOS1 10 :=
  ⟨by decide, demo_total_le, demo_ready,
    claim_C1 demoPOS1 10 (by decide) demo_total_le demo_ready⟩

/-- Claim C2: a checkout that fails with EmptyCartError or
InsufficientPaymentError changes nothing: the returned state (catalog
stock, cart lines and discount, transaction counter, last receipt) is
the pre-call state. -/
theorem claim_C2 (pos : POSSystem) (payment : ℚ)
    (h : (pos.checkout payment).1 = .error .emptyCart ∨
      ∃ t q, (pos.checkout payment).1 = .error (.insufficientPayment t q)) :
    (pos.checkout payment).2 = pos := by
  by_cases hemp : pos.cart.items = []
  · rw [checkout_of_empty pos payment hemp]
  · by_cases hpay : payment < pos.cart.total
    · rw [checkout_of_insufficient pos payment hemp hpay]
    · exfalso
      rcases hra : pos.store.reduceAll pos.cart.items with ⟨s2, e⟩
      cases e with
      | none =>
        have h1 := checkout_reduceAll_none pos payment s2 hemp hpay hra
        rcases h with h2 | ⟨t, q, h2⟩ <;> rw [h1] at h2 <;> simp at h2
      | some e =>
        have h1 := checkout_reduceAll_err pos payment s2 e hemp hpay hra
        have hshape := reduceAll_error_shape pos.cart.items pos.store e
          (by rw [hra])
        rcases h with h2 | ⟨t, q, h2⟩ <;> rw [h1] at h2 <;> simp at h2 <;>
          rcases hshape with ⟨m, hm⟩ | ⟨i, hm⟩ | ⟨n, r, a, hm⟩ <;>
          rw [h2] at hm <;> cases hm

/-- Witness for claim C2: empty-cart checkout leaves the state intact. -/
theorem claim_C2_witness :
    ((demoPOS.checkout 5).1 = .error .emptyCart ∨
      ∃ t q, (demoPOS.checkout 5).1 = .error (.insufficientPayment t q)) ∧
    (demoPOS.checkout 5).2 = demoPOS :=
  ⟨Or.inl (by rw [checkout_of_empty demoPOS 5 rfl]),
    claim_C2 demoPOS 5 (Or.inl (by rw [checkout_of_empty demoPOS 5 rfl]))⟩

/-- Claim C3: checkout raises EmptyCartError iff the cart has no lines;
for a non-empty cart it raises InsufficientPaymentError (carrying the
total and the payment) iff the rounded payment is strictly below the
rounded total (no tolerance); otherwise it succeeds.  The payment is a
2-decimal monetary amount (§6), expressed as `round2 payment = payment`. -/
theorem claim_C3 (pos : POSSystem) (payment : ℚ)
    (hready : pos.checkoutReady)
    (hp2 : round2 payment = payment) :
    ((pos.checkout payment).1 = .error .emptyCart ↔ pos.cart.items = []) ∧
    (pos.cart.items ≠ [] →
      ((pos.checkout payment).1 =
          .error (.insufficientPayment pos.cart.total payment) ↔
        round2 payment < round2 pos.cart.total)) ∧
    (pos.cart.items ≠ [] → ¬ round2 payment < round2 pos.cart.total →
      ∃ r, (pos.checkout payment).1 = .ok r) := by
  have hrt : round2 pos.cart.total = pos.cart.total := by
    rw [Cart.total]
    exact round2_round2 _
  refine ⟨?ha, ?hb, ?hc⟩
  case ha =>
    constructor
    · intro h
      by_contra hne
      by_cases hpay : payment < pos.cart.total
      · rw [checkout_of_insufficient pos payment hne hpay] at h
        simp at h
      · rw [checkout_success_eq pos payment hne hpay hready] at h
        simp at h
    · intro h
      rw [checkout_of_empty pos payment h]
  case hb =>
    intro hne
    rw [hrt, hp2]
    constructor
    · intro h
      by_contra hpay
      rw [checkout_success_eq pos payment hne hpay hready] at h
      simp at h
    · intro hlt
      rw [checkout_of_insufficient pos payment hne hlt]
  case hc =>
    intro hne hnlt
    rw [hrt, hp2] at hnlt
    exact ⟨_, by rw [checkout_success_eq pos payment hne hnlt hready]⟩

/-- Witness for claim C3 at the §8 scenario state, payment 10. -/
theorem claim_C3_witness :
    demoPOS1.checkoutReady ∧ round2 10 = 10 ∧
    (((demoPOS1.checkout 10).1 = .error .emptyCart ↔
        demoPOS1.cart.items = []) ∧
    (demoPOS1.cart.items ≠ [] →
      ((demoPOS1.checkout 10).1 =
          .error (.insufficientPayment demoPOS1.cart.total 10) ↔
        round2 10 < round2 demoPOS1.cart.total)) ∧
    (demoPOS1.cart.items ≠ [] → ¬ round2 10 < round2 demoPOS1.cart.total →
      ∃ r, (demoPOS1.checkout 10).1 = .ok r)) :=
  ⟨demo_ready, demo_pay, claim_C3 demoPOS1 10 demo_ready demo_pay⟩

/-- Claim C4 as stated is false on the code: in the §8 scenario
(Coffee, price 2.50, stock 50, add 2) the cart's tax amount is 0.42,
not the claimed 0.43 — the model's banker's rounding takes 0.425 down
to 0.42, and Python's float round gives the same 0.42 because
5.0*8.5/100 is just below 0.425. -/
theorem claim_C4_counterexample :
    (demoPOS.open_transaction).add_to_cart 1 2 = .ok demoPOS1 ∧
    demoPOS1.cart.subtotal = 5 ∧
    demoPOS1.cart.tax_amount = 21/50 ∧
    ¬ demoPOS1.cart.tax_amount = 43/100 := by
  refine ⟨demo_add, demo_subtotal, demo_tax, ?_⟩
  rw [demo_tax]
  norm_num

/-- Claim C4, amended: subtotal 5.00, tax 0.42, total 5.42; checkout
with payment 10.00 returns a receipt with total 5.42 and change 4.58,
leaves the stock at 48 and the transaction count at 1. -/
theorem claim_C4_amended :
    (demoPOS.open_transaction).add_to_cart 1 2 = .ok demoPOS1 ∧
    demoPOS1.cart.subtotal = 5 ∧
    demoPOS1.cart.tax_amount = 21/50 ∧
    demoPOS1.cart.total = 271/50 ∧
    (demoPOS1.checkout 10).1 = .ok demoReceipt ∧
    demoReceipt.total = 271/50 ∧
    demoReceipt.change = 229/50 ∧
    (demoPOS1.checkout 10).2.store.get_product 1 =
      .ok ⟨1, "Coffee", 5/2, "Beverages", 48⟩ ∧
    (demoPOS1.checkout 10).2.transaction_count = 1 := by
  have hpay : ¬ (10 : ℚ) < demoPOS1.cart.total := by
    rw [demo_total]
    norm_num
  have hck := checkout_success_eq demoPOS1 10 (by decide) hpay demo_ready
  refine ⟨demo_add, demo_subtotal, demo_tax, demo_total, ?_, rfl, rfl, ?_, ?_⟩
  · rw [hck]
    have hr : demoPOS1.successReceipt 10 = demoReceipt := by
      unfold POSSystem.successReceipt demoReceipt
      simp only [Receipt.mk.injEq]
      exact ⟨rfl, rfl, demo_subtotal, rfl, demo_discount_amount,
        by norm_num [TAX_RATE], demo_tax, demo_total, demo_pay, demo_change⟩
    show Except.ok (demoPOS1.successReceipt 10) = Except.ok demoReceipt
    rw [hr]
  · rw [hck]
    rfl
  · rw [hck]
    rfl

/-- Claim C5 as stated is false on the code: with stock 5, after adding
quantity 1, adding quantity 7 raises InsufficientStockError carrying the
increment 7 as the requested quantity (the first availability check
fires), not the cumulative 8 = 1 + 7 the claim asserts. -/
theorem claim_C5_counterexample :
    Cart.empty.add prodA 1 = .ok cartA ∧
    cartA.add prodA 7 = .error (.insufficientStock "A" 7 5) ∧
    (7 : ℤ) ≠ 1 + 7 := ⟨rfl, rfl, by decide⟩

/-- Claim C5, amended: adding q1 then q2 of one product yields a single
line with quantity q1+q2 when q1+q2 fits the stock; when q1+q2 exceeds
the stock the second add fails with InsufficientStockError (leaving the
line at q1), and the error carries the cumulative q1+q2 when q2 alone
fits the stock but carries q2 itself when already q2 exceeds it. -/
theorem claim_C5_amended (p : Product) (q1 q2 : ℤ)
    (h1 : 1 ≤ q1) (h2 : 1 ≤ q2) (hs : q1 ≤ p.stock) :
    ∃ c1, Cart.empty.add p q1 = .ok c1 ∧ c1.items = [⟨p, q1⟩] ∧
      (q1 + q2 ≤ p.stock → ∃ c2, c1.add p q2 = .ok c2 ∧
        c2.items = [⟨p, q1 + q2⟩]) ∧
      (p.stock < q1 + q2 → c1.add p q2 =
        .error (.insufficientStock p.name
          (if q2 ≤ p.stock then q1 + q2 else q2) p.stock)) := by
  have hav1 : p.is_available q1 = true := by
    unfold Product.is_available
    simp only [ge_iff_le, decide_eq_true_eq]
    omega
  refine ⟨⟨[⟨p, q1⟩], 0⟩, ?_, rfl, ?_, ?_⟩
  · simp [Cart.add, Cart.empty, Cart.find_item, hav1, show ¬ q1 ≤ 0 by omega]
  · intro hle
    have hav2 : p.is_available q2 = true := by
      unfold Product.is_available
      simp only [ge_iff_le, decide_eq_true_eq]
      omega
    have havT : p.is_available (q1 + q2) = true := by
      unfold Product.is_available
      simp only [ge_iff_le, decide_eq_true_eq]
      omega
    refine ⟨⟨[⟨p, q1 + q2⟩], 0⟩, ?_, rfl⟩
    simp [Cart.add, Cart.find_item, hav2, havT, updateFirst]
  · intro hgt
    by_cases hq2 : q2 ≤ p.stock
    · have hav2 : p.is_available q2 = true := by
        unfold Product.is_available
        simp only [ge_iff_le, decide_eq_true_eq]
        omega
      have havT : p.is_available (q1 + q2) = false := by
        unfold Product.is_available
        simp only [ge_iff_le, decide_eq_false_iff_not]
        omega
      rw [if_pos hq2]
      simp [Cart.add, Cart.find_item, hav2, havT]
    · have hav2 : p.is_available q2 = false := by
        unfold Product.is_available
        simp only [ge_iff_le, decide_eq_false_iff_not]
        omega
      rw [if_neg hq2]
      simp [Cart.add, hav2]

/-- Witness for the amended claim C5 (stock 5, q1 = 1, q2 = 3). -/
theorem claim_C5_amended_witness :
    (1 : ℤ) ≤ 1 ∧ (1 : ℤ) ≤ 3 ∧ (1 : ℤ) ≤ prodA.stock ∧
    (∃ c1, Cart.empty.add prodA 1 = .ok c1 ∧ c1.items = [⟨prodA, 1⟩] ∧
      ((1 : ℤ) + 3 ≤ prodA.stock → ∃ c2, c1.add prodA 3 = .ok c2 ∧
        c2.items = [⟨prodA, 1 + 3⟩]) ∧
      (prodA.stock < 1 + 3 → c1.add prodA 3 =
        .error (.insufficientStock prodA.name
          (if 3 ≤ prodA.stock then 1 + 3 else 3) prodA.stock))) :=
  ⟨by decide, by decide, by decide,
    claim_C5_amended prodA 1 3 (by decide) (by decide) (by decide)⟩

/-- Claim C6 as stated is false on the code: `Cart.remove` performs no
positivity check on an explicit quantity — removing 0 units succeeds and
leaves the line unchanged, and removing −3 units succeeds and raises the
line's quantity from 5 to 8, where the claim requires a ValidationError. -/
theorem claim_C6_counterexample :
    cartD.remove 1 (some 0) = .ok cartD ∧
    cartD.remove 1 (some (-3)) = .ok ⟨[⟨prodD, 8⟩], 0⟩ := ⟨rfl, rfl⟩

/-- Claim C6, amended: remove raises NotFoundError when no line has the
id; with quantity omitted or ≥ the line's quantity the line is deleted;
with any other explicit quantity — including zero or negative, which the
code does not validate — the line's quantity is decremented by it (hence
increased for a negative argument), and a ValidationError is never
raised. -/
theorem claim_C6_amended (c : Cart) (pid : ℤ) :
    (c.find_item pid = none → ∀ q, c.remove pid q = .error (.notFound pid)) ∧
    (∀ item, c.find_item pid = some item →
      (c.remove pid none =
        .ok ⟨eraseFirst (fun it => it.product.id == pid) c.items,
          c.discount_percent⟩) ∧
      (∀ n, item.quantity ≤ n → c.remove pid (some n) =
        .ok ⟨eraseFirst (fun it => it.product.id == pid) c.items,
          c.discount_percent⟩) ∧
      (∀ n, n < item.quantity → c.remove pid (some n) =
        .ok ⟨updateFirst (fun it => it.product.id == pid)
          (fun it => { it with quantity := it.quantity - n }) c.items,
          c.discount_percent⟩) ∧
      (∀ n msg, ¬ c.remove pid (some n) = .error (.validation msg))) := by
  constructor
  · intro hf q
    simp [Cart.remove, hf]
  · intro item hf
    refine ⟨?_, ?_, ?_, ?_⟩
    · simp [Cart.remove, hf]
    · intro n hn
      simp [Cart.remove, hf, show n ≥ item.quantity from hn]
    · intro n hn
      simp [Cart.remove, hf, show ¬ n ≥ item.quantity by omega]
    · intro n msg
      simp only [Cart.remove, hf]
      by_cases h : n ≥ item.quantity
      · simp [h]
      · simp [h]

/-- Witness for the amended claim C6 on a one-line cart (quantity 5). -/
theorem claim_C6_amended_witness :
    cartD.find_item 1 = some ⟨prodD, 5⟩ ∧
    cartD.remove 1 none = .ok ⟨[], 0⟩ ∧
    cartD.remove 1 (some 2) = .ok ⟨[⟨prodD, 3⟩], 0⟩ ∧
    cartD.remove 1 (some 7) = .ok ⟨[], 0⟩ := by
  obtain ⟨-, h2⟩ := claim_C6_amended cartD 1
  have hfind : cartD.find_item 1 = some ⟨prodD, 5⟩ := rfl
  obtain ⟨hnone, hge, hlt, -⟩ := h2 ⟨prodD, 5⟩ hfind
  exact ⟨hfind, hnone.trans rfl, (hlt 2 (by decide)).trans rfl,
    (hge 7 (by decide)).trans rfl⟩

/-- Claim C7 is right and the code is wrong: when the product already
has a cart line, `Cart.add` skips quantity validation entirely — adding
−7 to a line holding 2 units silently sets the line quantity to −5,
violating the quantity ≥ 1 invariant the code's own
`CartItem.__post_init__` enforces (and the fresh-line path of the same
method raises ValidationError for the very same argument). -/
theorem claim_C7_bug :
    cartB.add prodB (-7) = .ok ⟨[⟨prodB, -5⟩], 0⟩ ∧
    Cart.empty.add prodB (-7) =
      .error (.validation "Quantity must be at least 1") := ⟨rfl, rfl⟩

/-- Claim C8 as stated is false on the code: if the cart already holds a
line for the product, `add` merges into that line and `remove` with no
quantity then deletes the whole line, ending with one line fewer than
before the add (1 line before, 0 after). -/
theorem claim_C8_counterexample :
    cartD.items.length = 1 ∧
    cartD.add prodD 1 = .ok ⟨[⟨prodD, 6⟩], 0⟩ ∧
    Cart.remove ⟨[⟨prodD, 6⟩], 0⟩ 1 none = .ok ⟨[], 0⟩ ∧
    ¬ ([] : List CartItem).length = cartD.items.length :=
  ⟨rfl, rfl, rfl, by decide⟩

theorem find?_append_of_none {α : Type} (f : α → Bool) (l1 l2 : List α)
    (h : l1.find? f = none) : (l1 ++ l2).find? f = l2.find? f := by
  induction l1 with
  | nil => rfl
  | cons a l ih =>
    cases hfa : f a with
    | true =>
      rw [List.find?_cons_of_pos _ hfa] at h
      cases h
    | false =>
      rw [List.find?_cons_of_neg _ (by simp [hfa])] at h
      rw [List.cons_append, List.find?_cons_of_neg _ (by simp [hfa])]
      exact ih h

/-- Claim C8, amended: when the cart has no existing line for the
product, `add` followed by `remove` with no quantity argument restores
the cart's line count (indeed its very list of lines). -/
theorem claim_C8_amended (c : Cart) (p : Product) (q : ℤ)
    (hnofind : c.find_item p.id = none) (h1 : 0 < q) (hs : q ≤ p.stock) :
    ∃ c1, c.add p q = .ok c1 ∧ ∃ c2, c1.remove p.id none = .ok c2 ∧
      c2.items = c.items ∧ c2.items.length = c.items.length := by
  have hav : p.is_available q = true := by
    unfold Product.is_available
    simp only [ge_iff_le, decide_eq_true_eq]
    omega
  have hpred : (fun it : CartItem => it.product.id == p.id) ⟨p, q⟩ = true := by
    simp
  have hnofind' : c.items.find? (fun it => it.product.id == p.id) = none := hnofind
  have hall : ∀ it ∈ c.items,
      ¬ (fun it : CartItem => it.product.id == p.id) it = true :=
    fun it hit => by simpa using List.find?_eq_none.mp hnofind' it hit
  have hfind1 : Cart.find_item ⟨c.items ++ [⟨p, q⟩], c.discount_percent⟩ p.id =
      some ⟨p, q⟩ := by
    unfold Cart.find_item
    rw [find?_append_of_none _ _ _ hnofind']
    simp [List.find?]
  refine ⟨⟨c.items ++ [⟨p, q⟩], c.discount_percent⟩, ?_,
    ⟨c.items, c.discount_percent⟩, ?_, rfl, rfl⟩
  · simp [Cart.add, hnofind, hav, show ¬ q ≤ 0 by omega]
  · simp only [Cart.remove, hfind1]
    rw [eraseFirst_append_singleton (fun it : CartItem => it.product.id == p.id)
      c.items ⟨p, q⟩ hall hpred]

/-- Witness for the amended claim C8 starting from the empty cart. -/
theorem claim_C8_amended_witness :
    Cart.empty.find_item prodD.id = none ∧ (0 : ℤ) < 2 ∧
    (2 : ℤ) ≤ prodD.stock ∧
    (∃ c1, Cart.empty.add prodD 2 = .ok c1 ∧
      ∃ c2, c1.remove prodD.id none = .ok c2 ∧
        c2.items = Cart.empty.items ∧
        c2.items.length = Cart.empty.items.length) :=
  ⟨rfl, by decide, by decide,
    claim_C8_amended Cart.empty prodD 2 rfl (by decide) (by decide)⟩

/-- Claim C9: with TAX_RATE positive, the cart total is at least the
total before tax (for any invariant-respecting discount in [0, 100]),
and the total before tax never exceeds the subtotal for any discount
≥ 0 — under the per-step 2-decimal rounding, for carts whose lines have
non-negative prices and quantities. -/
theorem claim_C9 (c : Cart)
    (hitems : ∀ it ∈ c.items, 0 ≤ it.product.price ∧ 0 ≤ it.quantity) :
    0 < TAX_RATE ∧
    (0 ≤ c.discount_percent → c.discount_percent ≤ 100 →
      c.total_before_tax ≤ c.total) ∧
    (0 ≤ c.discount_percent → c.total_before_tax ≤ c.subtotal) := by
  have hsub0 : 0 ≤ c.subtotal := subtotal_nonneg c hitems
  have hsub2 : Is2dp c.subtotal := is2dp_round2 _
  have hda2 : Is2dp c.discount_amount := is2dp_round2 _
  have htbt : c.total_before_tax = c.subtotal - c.discount_amount :=
    (hsub2.sub hda2).round2_eq
  refine ⟨by norm_num [TAX_RATE], ?_, ?_⟩
  · intro hd0 hd100
    have hda0 : 0 ≤ c.discount_amount := by
      apply round2_nonneg
      exact div_nonneg (mul_nonneg hsub0 hd0) (by norm_num)
    have hda_le : c.discount_amount ≤ c.subtotal := by
      have h1 : c.subtotal * c.discount_percent / 100 ≤ c.subtotal := by
        have h2 : c.subtotal * c.discount_percent ≤ c.subtotal * 100 :=
          mul_le_mul_of_nonneg_left hd100 hsub0
        linarith
      calc c.discount_amount ≤ round2 c.subtotal := round2_mono h1
        _ = c.subtotal := hsub2.round2_eq
    have htbt0 : 0 ≤ c.total_before_tax := by
      rw [htbt]
      linarith
    have htax0 : 0 ≤ c.tax_amount := by
      apply round2_nonneg
      apply div_nonneg _ (by norm_num : (0 : ℚ) ≤ 100)
      apply mul_nonneg htbt0
      norm_num [TAX_RATE]
    have htot : c.total = c.total_before_tax + c.tax_amount :=
      ((is2dp_round2 _).add (is2dp_round2 _)).round2_eq
    rw [htot]
    linarith
  · intro hd0
    have hda0 : 0 ≤ c.discount_amount := by
      apply round2_nonneg
      exact div_nonneg (mul_nonneg hsub0 hd0) (by norm_num)
    rw [htbt]
    linarith

/-- Witness for claim C9 on a one-line cart with a 10 % discount. -/
theorem claim_C9_witness :
    (∀ it ∈ cartDisc.items, 0 ≤ it.product.price ∧ 0 ≤ it.quantity) ∧
    (0 < TAX_RATE ∧
      (0 ≤ cartDisc.discount_percent → cartDisc.discount_percent ≤ 100 →
        cartDisc.total_before_tax ≤ cartDisc.total) ∧
      (0 ≤ cartDisc.discount_percent →
        cartDisc.total_before_tax ≤ cartDisc.subtotal)) :=
  ⟨by norm_num [cartDisc, prodD],
    claim_C9 cartDisc (by norm_num [cartDisc, prodD])⟩

/-- Claim C10: a successful checkout changes, inside the catalog, only
the stock of products that have a cart line — every product keeps its
id, name, price and category, products without a cart line keep their
stock, the list of registered ids is unchanged, and the next-id counter
is unchanged. -/
theorem claim_C10 (pos : POSSystem) (payment : ℚ)
    (hne : pos.cart.items ≠ [])
    (hpay : pos.cart.total ≤ payment)
    (hready : pos.checkoutReady) :
    checkoutFrameSpec pos payment := by
  have hpay' : ¬ payment < pos.cart.total := not_lt.mpr hpay
  have hck := checkout_success_eq pos payment hne hpay' hready
  refine ⟨pos.successReceipt payment, by rw [hck], ?_, ?_, ?_, ?_⟩
  · rw [hck]
    rfl
  · rw [hck]
    show (pos.successState payment).store.products.map Product.id = _
    unfold POSSystem.successState
    simp only [List.map_map]
    exact List.map_congr_left (fun p _ => rfl)
  · intro p hp
    rw [hck]
    refine ⟨{ p with stock := p.stock - cartQty pos.cart.items p.id },
      ?_, rfl, rfl, rfl, rfl, rfl⟩
    show _ ∈ (pos.successState payment).store.products
    unfold POSSystem.successState
    exact List.mem_map_of_mem _ hp
  · intro p hp hfind
    rw [hck]
    show p ∈ (pos.successState payment).store.products
    have h0 : cartQty pos.cart.items p.id = 0 := by
      unfold Cart.find_item at hfind
      simp [cartQty, hfind]
    have hfix : ({ p with stock := p.stock - cartQty pos.cart.items p.id } :
        Product) = p := by
      rw [h0]
      simp
    have hm := List.mem_map_of_mem
      (fun p : Product =>
        ({ p with stock := p.stock - cartQty pos.cart.items p.id } : Product)) hp
    simpa only [hfix] using hm

/-- Witness for claim C10 at the §8 scenario state, payment 10. -/
theorem claim_C10_witness :
    demoPOS1.cart.items ≠ [] ∧ demoPOS1.cart.total ≤ 10 ∧
      demoPOS1.checkoutReady ∧ checkoutFrameSpec demoPOS1 10 :=
  ⟨by decide, demo_total_le, demo_ready,
    claim_C10 demoPOS1 10 (by decide) demo_total_le demo_ready⟩

end POS
